import Mathlib

/-!
Shallow embedding of the two scripts of this repository:
`scripts/pp_structure_server.py` (a Flask service wrapping the PP-Structure
layout model) and `scripts/generate_docx_samples.py` (a docx test-fixture
generator).  Numeric values that are Python floats are modelled as rationals;
the file system is modelled as a predicate `String → Bool` recording which
paths exist, and external effects (image writes, model inference, file
removal) are recorded in explicit traces.
-/

/-- File-system state: which paths currently exist. -/
abbrev FS := String → Bool

/-- Creating a file at path `p` (`pix.save(img_path)` / `path.write_bytes`). -/
def FS.write (fs : FS) (p : String) : FS := fun q => if q = p then true else fs q

/-- Removing the file at path `p` (`os.remove(img_path)`). -/
def FS.remove (fs : FS) (p : String) : FS := fun q => if q = p then false else fs q

/-! ## Decimal-digit helpers

Support for reasoning about the strings produced by Python f-string
interpolation of natural numbers (`f'el_{page_index}_{idx}'`,
`f'page_{page_num}.png'`), embedded with `Nat.repr`. -/

/-- Numeric value of a decimal digit character. -/
def digitVal (c : Char) : Nat := c.toNat - 48

/-- Value of a big-endian list of decimal digit characters. -/
def valOfDigits : List Char → Nat
  | [] => 0
  | c :: cs => digitVal c * 10 ^ cs.length + valOfDigits cs

namespace PPServer

/-- One layout item returned by the PP-Structure model for a page image:
an entry of the `result` list consumed by `parse_pp_structure_result`.
`bbox` is the value of the item's bbox key when present (four pixel
coordinates), `itemType` the value of its type key when present,
`resText` models `item.get('res', ...).get('text', '')` (the recognised
text when present), and `resStr` models `str(item.get('res', ''))` (the
string rendering of the raw recognition payload, used for tables). -/
structure PPItem where
  bbox : Option (ℚ × ℚ × ℚ × ℚ)
  itemType : Option String
  resText : Option String
  resStr : String
  deriving DecidableEq

/-- One output block of `parse_pp_structure_result` (the `element` dict).
Keys that a given branch does not set are `none`. -/
structure Block where
  id : String
  type : String
  bbox : ℚ × ℚ × ℚ × ℚ
  pageIndex : Nat
  content : Option String := none
  caption : Option String := none
  deriving DecidableEq

/-- Default used when indexing block lists out of range. -/
def defaultBlock : Block := ⟨ "", "", (0, 0, 0, 0), 0, none, none⟩

/-- Default used when indexing item lists out of range. -/
def defaultItem : PPItem := ⟨none, none, none, ""⟩

/-- The `map_type` function: the dict lookup
text/title/figure/table/equation with default result text. -/
def map_type (pp_type : String) : String :=
  if pp_type = "text" then "text"
  else if pp_type = "title" then "text"
  else if pp_type = "figure" then "image"
  else if pp_type = "table" then "table"
  else if pp_type = "equation" then "equation"
  else "text"

/-- The local `scale = 72 / 200` of `parse_pp_structure_result`:
image pixels (200 DPI) to PDF points. -/
def scale : ℚ := 72 / 200

/-- The scale entries of `fitz.Matrix(200/72, 200/72)` used by
`pdf_to_images` to rasterize each page at 200 DPI: PDF points to
image pixels. -/
def renderScale : ℚ := 200 / 72

/-- Block id `f'el_{page_index}_{idx}'`. -/
def elId (page_index idx : Nat) : String :=
  "el_" ++ Nat.repr page_index ++ "_" ++ Nat.repr idx

/-- One iteration of the loop body of `parse_pp_structure_result`:
builds the `element` dict for the item at position `idx`. -/
def mkElement (page_index idx : Nat) (item : PPItem) : Block :=
  let bbox_orig := item.bbox.getD (0, 0, 0, 0)
  let item_type := item.itemType.getD "text"
  let bbox := (bbox_orig.1 * scale, bbox_orig.2.1 * scale,
               bbox_orig.2.2.1 * scale, bbox_orig.2.2.2 * scale)
  let element : Block :=
    { id := elId page_index idx, type := map_type item_type,
      bbox := bbox, pageIndex := page_index }
  if item_type = "text" then
    { element with content := some (item.resText.getD "") }
  else if item_type = "title" then
    { element with content := some (item.resText.getD ""), type := "text" }
  else if item_type = "figure" then
    { element with type := "image", caption := some (item.resText.getD "") }
  else if item_type = "table" then
    { element with type := "table", content := some item.resStr }
  else element

/-- The `for idx, item in enumerate(result)` loop of
`parse_pp_structure_result`, with `idx` the running enumeration index. -/
def parseItemsFrom (page_index idx : Nat) : List PPItem → List Block
  | [] => []
  | item :: rest => mkElement page_index idx item :: parseItemsFrom page_index (idx + 1) rest

/-- The `parse_pp_structure_result` function: converts the PP-Structure
result list for one page into the list of output blocks.  The
`page_width` and `page_height` parameters are taken but, as in the
source, never used. -/
def parse_pp_structure_result (result : List PPItem) (page_index : Nat)
    (page_width page_height : ℚ) : List Block :=
  parseItemsFrom page_index 0 result

/-- Page dimensions in PDF points (`page.rect`). -/
structure PageDim where
  width : ℚ
  height : ℚ
  deriving DecidableEq

/-- Default page dimensions for out-of-range indexing. -/
def defaultDim : PageDim := ⟨0, 0⟩

/-- One tuple `(page_num + 1, img_path, width, height)` of the list
returned by `pdf_to_images`. -/
structure PageImage where
  pageIndex : Nat
  path : String
  width : ℚ
  height : ℚ
  deriving DecidableEq

/-- Default page-image tuple for out-of-range indexing. -/
def defaultImage : PageImage := ⟨0, "", 0, 0⟩

/-- External dependencies of the request handler: the initial file-system
query is part of `FS`; `openPdf` models `fitz.open` plus reading each
page's rect (an exception is an `error`), and `pp_structure` models
invoking the PP-Structure model on a page image (an exception is an
`error`). -/
structure Env where
  openPdf : String → Except String (List PageDim)
  pp_structure : String → Except String (List PPItem)

/-- Observable side effects of a request, in order of occurrence. -/
inductive Effect where
  | makeTempDir
  | writeImage (path : String)
  | inference (path : String)
  | removeFile (path : String)
  deriving DecidableEq

/-- The `temp_dir` constant of `pdf_to_images`. -/
def tempDir : String := "temp_pdf_images"

/-- The temporary image path `os.path.join(temp_dir, f'page_{page_num}.png')`. -/
def imgPath (page_num : Nat) : String :=
  tempDir ++ "/page_" ++ Nat.repr page_num ++ ".png"

/-- The page loop of `pdf_to_images`: renders page `page_num` onward,
saving each pixmap to its temporary path. -/
def renderPages (dims : List PageDim) (page_num : Nat) (fs : FS) :
    List PageImage × FS × List Effect :=
  match dims with
  | [] => ([], fs, [])
  | d :: rest =>
    let p := imgPath page_num
    let r := renderPages rest (page_num + 1) (FS.write fs p)
    (⟨page_num + 1, p, d.width, d.height⟩ :: r.1, r.2.1, Effect.writeImage p :: r.2.2)

/-- The `pdf_to_images` function: opens the PDF, makes the temp
directory, renders every page to a PNG and returns the page tuples. -/
def pdf_to_images (env : Env) (pdf_path : String) (fs : FS) :
    Except String (List PageImage) × FS × List Effect :=
  match env.openPdf pdf_path with
  | Except.error e => (Except.error e, fs, [])
  | Except.ok dims =>
    let r := renderPages dims 0 fs
    (Except.ok r.1, r.2.1, Effect.makeTempDir :: r.2.2)

/-- One page entry of the response (`pages.append(...)`). -/
structure Page where
  pageIndex : Nat
  width : ℚ
  height : ℚ
  blocks : List Block
  deriving DecidableEq

/-- Default page entry for out-of-range indexing. -/
def defaultPage : Page := ⟨0, 0, 0, []⟩

/-- The `structure` dict of a successful response. -/
structure DocStructure where
  pageCount : Nat
  pages : List Page
  deriving DecidableEq

/-- JSON body of a response: an error object, a structure object, or the
health-check object. -/
inductive Body where
  | errorMsg (msg : String)
  | result (s : DocStructure)
  | healthInfo (status backend : String)
  deriving DecidableEq

/-- An HTTP response: status code and JSON body. -/
structure Response where
  status : Nat
  body : Body
  deriving DecidableEq

/-- The JSON request body of `/parse`: `pdf_path` is
`data.get('pdf_path')`, `none` when the key is missing or null. -/
structure ParseRequest where
  pdf_path : Option String
  deriving DecidableEq

/-- The 404 early return `jsonify error PDF file not found`. -/
def notFound : Response := ⟨404, Body.errorMsg "PDF file not found"⟩

/-- The per-page loop of `parse_pdf`: runs PP-Structure on each page
image, converts the result, appends the page entry and removes the
temporary image when it exists. -/
def processPages (env : Env) (images : List PageImage) (fs : FS) :
    Except String (List Page) × FS × List Effect :=
  match images with
  | [] => (Except.ok [], fs, [])
  | img :: rest =>
    match env.pp_structure img.path with
    | Except.error e => (Except.error e, fs, [Effect.inference img.path])
    | Except.ok result =>
      let blocks := parse_pp_structure_result result img.pageIndex img.width img.height
      let page : Page := ⟨img.pageIndex, img.width, img.height, blocks⟩
      let cleanup : FS × List Effect :=
        if fs img.path then (FS.remove fs img.path, [Effect.removeFile img.path])
        else (fs, [])
      let r := processPages env rest cleanup.1
      (Except.map (fun pages => page :: pages) r.1, r.2.1,
       Effect.inference img.path :: cleanup.2 ++ r.2.2)

/-- The body of the `try:` block of the `parse_pdf` handler.  An
`error` result is an uncaught Python exception escaping the body. -/
def parse_body (env : Env) (req : ParseRequest) (fs : FS) :
    Except String Response × FS × List Effect :=
  match req.pdf_path with
  | none => (Except.ok notFound, fs, [])
  | some pdf_path =>
    if pdf_path = "" then (Except.ok notFound, fs, [])
    else if fs pdf_path = false then (Except.ok notFound, fs, [])
    else
      match pdf_to_images env pdf_path fs with
      | (Except.error e, fs1, effs1) => (Except.error e, fs1, effs1)
      | (Except.ok images, fs1, effs1) =>
        match processPages env images fs1 with
        | (Except.error e, fs2, effs2) => (Except.error e, fs2, effs1 ++ effs2)
        | (Except.ok pages, fs2, effs2) =>
          (Except.ok ⟨200, Body.result ⟨pages.length, pages⟩⟩, fs2, effs1 ++ effs2)

/-- The `/parse` handler `parse_pdf`: the `try:` body with the blanket
`except Exception` handler that turns any exception into a 500
response carrying `str(e)`. -/
def parse_pdf (env : Env) (req : ParseRequest) (fs : FS) :
    Response × FS × List Effect :=
  match parse_body env req fs with
  | (Except.ok resp, fs1, effs) => (resp, fs1, effs)
  | (Except.error e, fs1, effs) => (⟨500, Body.errorMsg e⟩, fs1, effs)

/-- The `/health` handler. -/
def health : Response := ⟨200, Body.healthInfo "ok" "pp-structure"⟩

/-- The routes registered on the Flask application by the two
`@app.route` decorators: `/parse` (POST) and `/health` (GET). -/
def appRoutes : List (String × String) :=
  [("/parse", "POST"), ("/health", "GET")]

/-- Paths of the page images written during a request, extracted from
the effect trace. -/
def writtenImages : List Effect → List String
  | [] => []
  | Effect.writeImage p :: rest => p :: writtenImages rest
  | _ :: rest => writtenImages rest

end PPServer

namespace DocxGen

/-- The repository-relative part of the `OUTPUT_DIR` constant
(`Path(__file__).resolve().parent.parent / tests / typesetting / samples`);
the absolute prefix of the script location is abstracted away. -/
def OUTPUT_DIR : String := "tests/typesetting/samples"

/-- The path of the 1x1 sample PNG written by `write_png`. -/
def pngPath : String := OUTPUT_DIR ++ "/sample-image.png"

/-- One element added to a document body.  Run-level formatting
(bold/italic/underline, fonts, spacing, alignment, merges and cell texts)
is abstracted away; paragraph text is the concatenation of its runs. -/
inductive DocItem where
  | heading (text : String) (level : Nat)
  | para (text : String) (style : Option String)
  | table (rows cols : Nat)
  | picture (path : String) (width : ℚ)
  | pageBreak
  deriving DecidableEq

/-- A generated document: its body items, the header/footer text set on
any of its sections, and its section count (a fresh `Document()` has one
section; `add_section` adds one). -/
structure Docx where
  items : List DocItem
  headerText : Option String := none
  footerText : Option String := none
  numSections : Nat := 1
  deriving DecidableEq

/-- Actions performed by the generator script, in order. -/
inductive GenAction where
  | ensureDir (dir : String)
  | writePng (path : String)
  | saveDocx (dir name : String) (doc : Docx)
  deriving DecidableEq

/-- Document built by `make_basic_paragraphs`. -/
def basicParagraphsDoc : Docx :=
  { items := [DocItem.heading "Basic Paragraphs" 1,
              DocItem.para "This paragraph mixes bold, italic, and underlined text." none,
              DocItem.para "Large text with spacing." none,
              DocItem.para "Right aligned paragraph with smaller font." none] }

/-- Document built by `make_lists_and_indent`. -/
def listsAndIndentDoc : Docx :=
  { items := [DocItem.heading "Lists and Indentation" 1,
              DocItem.para "Bullet list:" none,
              DocItem.para "First bullet" (some "List Bullet"),
              DocItem.para "Second bullet" (some "List Bullet"),
              DocItem.para "Numbered list:" none,
              DocItem.para "First item" (some "List Number"),
              DocItem.para "Second item" (some "List Number"),
              DocItem.para "Nested bullet" (some "List Bullet 2"),
              DocItem.para "Indented paragraph with spacing." none] }

/-- Document built by `make_table_simple`. -/
def tableSimpleDoc : Docx :=
  { items := [DocItem.heading "Simple Table" 1, DocItem.table 3 3] }

/-- Document built by `make_table_merge`. -/
def tableMergeDoc : Docx :=
  { items := [DocItem.heading "Merged Cells" 1, DocItem.table 3 3] }

/-- Document built by `make_image_inline`. -/
def imageInlineDoc : Docx :=
  { items := [DocItem.heading "Inline Image" 1,
              DocItem.para "Image below should scale to width." none,
              DocItem.picture pngPath 3,
              DocItem.para "Caption: 3 inch wide image." none] }

/-- Document built by `make_header_footer`. -/
def headerFooterDoc : Docx :=
  { items := [DocItem.heading "Header and Footer" 1,
              DocItem.para "This document includes a simple header and footer." none,
              DocItem.pageBreak,
              DocItem.para "Second page to verify header/footer repetition." none],
    headerText := some "Lumina Sample Header",
    footerText := some "Lumina Sample Footer" }

/-- Document built by `make_page_breaks` (the `for index in range(1, 4)`
loop unrolled). -/
def pageBreaksDoc : Docx :=
  { items := [DocItem.heading "Page Breaks" 1,
              DocItem.para "Page 1 content." none,
              DocItem.pageBreak,
              DocItem.para "Page 2 content." none,
              DocItem.pageBreak,
              DocItem.para "Page 3 content." none] }

/-- Document built by `make_sections_margins` (orientation and margins
are abstracted away; the second section carries a header). -/
def sectionsMarginsDoc : Docx :=
  { items := [DocItem.heading "Section 1" 1,
              DocItem.para "Portrait section with default margins." none,
              DocItem.heading "Section 2" 1,
              DocItem.para "Landscape section with custom margins." none],
    headerText := some "Landscape Header",
    numSections := 2 }

/-- Document built by `make_styles_headings`. -/
def stylesHeadingsDoc : Docx :=
  { items := [DocItem.heading "Heading 1" 1,
              DocItem.para "Body text under heading 1." none,
              DocItem.heading "Heading 2" 2,
              DocItem.para "Body text under heading 2." none,
              DocItem.para "Quote style paragraph." (some "Quote")] }

/-- Document built by `make_mixed_layout`. -/
def mixedLayoutDoc : Docx :=
  { items := [DocItem.heading "Mixed Layout" 1,
              DocItem.para "Intro paragraph with bold text. Bold!" none,
              DocItem.para "Checklist:" none,
              DocItem.para "Check one" (some "List Bullet"),
              DocItem.para "Check two" (some "List Bullet"),
              DocItem.table 2 2,
              DocItem.para "Image: " none,
              DocItem.picture pngPath (5 / 2),
              DocItem.pageBreak,
              DocItem.heading "Second Page" 1,
              DocItem.para "Content after page break." none] }

/-- The `save_doc` helper: saving `doc` as `OUTPUT_DIR / name`. -/
def save_doc (doc : Docx) (name : String) : GenAction :=
  GenAction.saveDocx OUTPUT_DIR name doc

/-- The `make_basic_paragraphs` function. -/
def make_basic_paragraphs (fs : FS) : FS × List GenAction :=
  (fs, [save_doc basicParagraphsDoc "basic-paragraphs.docx"])

/-- The `make_lists_and_indent` function. -/
def make_lists_and_indent (fs : FS) : FS × List GenAction :=
  (fs, [save_doc listsAndIndentDoc "lists-and-indent.docx"])

/-- The `make_table_simple` function. -/
def make_table_simple (fs : FS) : FS × List GenAction :=
  (fs, [save_doc tableSimpleDoc "table-simple.docx"])

/-- The `make_table_merge` function. -/
def make_table_merge (fs : FS) : FS × List GenAction :=
  (fs, [save_doc tableMergeDoc "table-merge.docx"])

/-- The `make_image_inline` function: writes the sample PNG
unconditionally, then saves the document. -/
def make_image_inline (fs : FS) : FS × List GenAction :=
  (FS.write fs pngPath,
   [GenAction.writePng pngPath, save_doc imageInlineDoc "image-inline.docx"])

/-- The `make_header_footer` function. -/
def make_header_footer (fs : FS) : FS × List GenAction :=
  (fs, [save_doc headerFooterDoc "header-footer.docx"])

/-- The `make_page_breaks` function. -/
def make_page_breaks (fs : FS) : FS × List GenAction :=
  (fs, [save_doc pageBreaksDoc "page-breaks.docx"])

/-- The `make_sections_margins` function. -/
def make_sections_margins (fs : FS) : FS × List GenAction :=
  (fs, [save_doc sectionsMarginsDoc "sections-margins.docx"])

/-- The `make_styles_headings` function. -/
def make_styles_headings (fs : FS) : FS × List GenAction :=
  (fs, [save_doc stylesHeadingsDoc "styles-headings.docx"])

/-- The `make_mixed_layout` function: writes the sample PNG only when it
does not already exist, then saves the document. -/
def make_mixed_layout (fs : FS) : FS × List GenAction :=
  if fs pngPath then (fs, [save_doc mixedLayoutDoc "mixed-layout.docx"])
  else (FS.write fs pngPath,
        [GenAction.writePng pngPath, save_doc mixedLayoutDoc "mixed-layout.docx"])

/-- The `main` function of the generator: ensures the output directory,
then builds the ten sample documents in order. -/
def main (fs : FS) : FS × List GenAction :=
  let r1 := make_basic_paragraphs fs
  let r2 := make_lists_and_indent r1.1
  let r3 := make_table_simple r2.1
  let r4 := make_table_merge r3.1
  let r5 := make_image_inline r4.1
  let r6 := make_header_footer r5.1
  let r7 := make_page_breaks r6.1
  let r8 := make_sections_margins r7.1
  let r9 := make_styles_headings r8.1
  let r10 := make_mixed_layout r9.1
  (r10.1,
   GenAction.ensureDir OUTPUT_DIR ::
     (r1.2 ++ r2.2 ++ r3.2 ++ r4.2 ++ r5.2 ++ r6.2 ++ r7.2 ++ r8.2 ++ r9.2 ++ r10.2))

/-- The docx saves among a list of generator actions, as
(directory, file name, document) triples. -/
def savedDocs : List GenAction → List (String × String × Docx)
  | [] => []
  | GenAction.saveDocx dir name doc :: rest => (dir, name, doc) :: savedDocs rest
  | _ :: rest => savedDocs rest

/-- Whether a document contains a paragraph. -/
def Docx.hasPara (d : Docx) : Bool :=
  d.items.any fun i => match i with
    | DocItem.para _ _ => true
    | _ => false

/-- Whether a document contains a list paragraph (a List Bullet,
List Number or List Bullet 2 style). -/
def Docx.hasListItem (d : Docx) : Bool :=
  d.items.any fun i => match i with
    | DocItem.para _ (some s) =>
        s == "List Bullet" || s == "List Number" || s == "List Bullet 2"
    | _ => false

/-- Whether a document contains a table. -/
def Docx.hasTable (d : Docx) : Bool :=
  d.items.any fun i => match i with
    | DocItem.table _ _ => true
    | _ => false

/-- Whether a document contains an inline picture. -/
def Docx.hasPicture (d : Docx) : Bool :=
  d.items.any fun i => match i with
    | DocItem.picture _ _ => true
    | _ => false

/-- Whether a document contains a page break. -/
def Docx.hasPageBreak (d : Docx) : Bool :=
  d.items.any fun i => match i with
    | DocItem.pageBreak => true
    | _ => false

/-- Whether a document sets both a header and a footer. -/
def Docx.hasHeaderFooter (d : Docx) : Bool :=
  d.headerText.isSome && d.footerText.isSome

/-- Whether a document has more than one section. -/
def Docx.multiSection (d : Docx) : Bool :=
  decide (1 < d.numSections)

end DocxGen

namespace PPServer

/-- All block ids appearing in a response structure, page by page. -/
def allIds (s : DocStructure) : List String :=
  (s.pages.map (fun pg => pg.blocks.map Block.id)).flatten

/-- Concrete file system where every path exists (for witnesses). -/
def fsAll : FS := fun _ => true

/-- Concrete environment whose PDF library and model always throw. -/
def envErr : Env := ⟨fun _ => Except.error "boom", fun _ => Except.error "boom"⟩

/-- A concrete text layout item. -/
def itemEx : PPItem := ⟨some (100, 200, 300, 400), some "text", some "hello", "res"⟩

/-- Concrete environment: a one-page letter-size PDF whose single page
yields no layout items. -/
def envOk : Env := ⟨fun _ => Except.ok [⟨612, 792⟩], fun _ => Except.ok []⟩

/-- A concrete request naming an existing PDF. -/
def reqEx : ParseRequest := ⟨some "/doc.pdf"⟩

/-- A concrete request missing the pdf_path key. -/
def reqNone : ParseRequest := ⟨none⟩

/-- The structure produced for `envOk`/`reqEx`/`fsAll`. -/
def sW : DocStructure := ⟨1, [⟨1, 612, 792, []⟩]⟩

end PPServer

/-! ## Theorems -/

open PPServer DocxGen

theorem digitVal_digitChar : ∀ n < 10, digitVal (Nat.digitChar n) = n := by decide

theorem isDigit_digitChar : ∀ n < 10, (Nat.digitChar n).isDigit = true := by decide

theorem valOfDigits_toDigitsCore :
    ∀ (fuel n : Nat) (ds : List Char), n < 10 ^ fuel →
      valOfDigits (Nat.toDigitsCore 10 fuel n ds) =
        n * 10 ^ ds.length + valOfDigits ds := by
  intro fuel
  induction fuel with
  | zero =>
    intro n ds h
    have hn : n = 0 := by omega
    subst hn
    simp [Nat.toDigitsCore]
  | succ fuel ih =>
    intro n ds h
    by_cases h10 : n / 10 = 0
    · have hn : n < 10 := by omega
      have hcore : Nat.toDigitsCore 10 (fuel + 1) n ds = Nat.digitChar (n % 10) :: ds := by
        simp [Nat.toDigitsCore, h10]
      rw [hcore]
      show digitVal (Nat.digitChar (n % 10)) * 10 ^ ds.length + valOfDigits ds =
        n * 10 ^ ds.length + valOfDigits ds
      rw [digitVal_digitChar (n % 10) (Nat.mod_lt _ (by norm_num)),
        Nat.mod_eq_of_lt hn]
    · have hcore : Nat.toDigitsCore 10 (fuel + 1) n ds =
          Nat.toDigitsCore 10 fuel (n / 10) (Nat.digitChar (n % 10) :: ds) := by
        simp [Nat.toDigitsCore, h10]
      have hlt : n / 10 < 10 ^ fuel := by
        rw [pow_succ] at h
        exact Nat.div_lt_iff_lt_mul (by norm_num) |>.mpr h
      rw [hcore, ih (n / 10) (Nat.digitChar (n % 10) :: ds) hlt]
      show (n / 10) * 10 ^ (ds.length + 1) +
          (digitVal (Nat.digitChar (n % 10)) * 10 ^ ds.length + valOfDigits ds) =
        n * 10 ^ ds.length + valOfDigits ds
      rw [digitVal_digitChar (n % 10) (Nat.mod_lt _ (by norm_num))]
      conv_rhs => rw [← Nat.div_add_mod n 10]
      rw [pow_succ]
      ring

theorem valOfDigits_toDigits (n : Nat) : valOfDigits (Nat.toDigits 10 n) = n := by
  have hpow : n < 10 ^ (n + 1) :=
    lt_of_lt_of_le (Nat.lt_pow_self (by norm_num) n)
      (Nat.pow_le_pow_right (by norm_num) (Nat.le_succ n))
  have h := valOfDigits_toDigitsCore (n + 1) n [] hpow
  simpa [Nat.toDigits, valOfDigits] using h

theorem repr_data_eq_toDigits (n : Nat) : (Nat.repr n).data = Nat.toDigits 10 n := rfl

theorem repr_data_inj {m n : Nat} (h : (Nat.repr m).data = (Nat.repr n).data) :
    m = n := by
  rw [repr_data_eq_toDigits, repr_data_eq_toDigits] at h
  have := congrArg valOfDigits h
  rwa [valOfDigits_toDigits, valOfDigits_toDigits] at this

theorem isDigit_toDigitsCore :
    ∀ (fuel n : Nat) (ds : List Char), (∀ c ∈ ds, c.isDigit = true) →
      ∀ c ∈ Nat.toDigitsCore 10 fuel n ds, c.isDigit = true := by
  intro fuel
  induction fuel with
  | zero => intro n ds hds; simpa [Nat.toDigitsCore] using hds
  | succ fuel ih =>
    intro n ds hds
    have hd : ∀ c ∈ (Nat.digitChar (n % 10) :: ds), c.isDigit = true := by
      intro c hc
      rcases List.mem_cons.mp hc with rfl | hc
      · exact isDigit_digitChar _ (Nat.mod_lt _ (by norm_num))
      · exact hds c hc
    by_cases h10 : n / 10 = 0
    · intro c hc
      apply hd c
      simpa [Nat.toDigitsCore, h10] using hc
    · intro c hc
      apply ih (n / 10) _ hd c
      simpa [Nat.toDigitsCore, h10] using hc

theorem repr_no_underscore (n : Nat) : ∀ c ∈ (Nat.repr n).data, c ≠ '_' := by
  intro c hc heq
  have hdig : c.isDigit = true := by
    apply isDigit_toDigitsCore (n + 1) n [] (by simp) c
    simpa [repr_data_eq_toDigits, Nat.toDigits] using hc
  rw [heq] at hdig
  exact absurd hdig (by decide)

theorem append_underscore_inj :
    ∀ (a b c d : List Char),
      (∀ x ∈ a, x ≠ '_') → (∀ x ∈ b, x ≠ '_') →
      a ++ '_' :: c = b ++ '_' :: d → a = b ∧ c = d := by
  intro a
  induction a with
  | nil =>
    intro b c d _ hb h
    cases b with
    | nil => exact ⟨rfl, by simpa using h⟩
    | cons y b' =>
      simp only [List.nil_append, List.cons_append, List.cons.injEq] at h
      exact absurd h.1.symm (hb y (by simp))
  | cons x a' ih =>
    intro b c d ha hb h
    cases b with
    | nil =>
      simp only [List.nil_append, List.cons_append, List.cons.injEq] at h
      exact absurd h.1 (ha x (by simp))
    | cons y b' =>
      simp only [List.cons_append, List.cons.injEq] at h
      obtain ⟨hxy, hrest⟩ := h
      obtain ⟨h1, h2⟩ := ih b' c d (fun z hz => ha z (by simp [hz]))
        (fun z hz => hb z (by simp [hz])) hrest
      exact ⟨by rw [hxy, h1], h2⟩

theorem elId_inj {p i q j : Nat} (h : elId p i = elId q j) : p = q ∧ i = j := by
  have hd := congrArg String.data h
  simp only [elId, String.data_append] at hd
  have hd' : (Nat.repr p).data ++ '_' :: (Nat.repr i).data =
      (Nat.repr q).data ++ '_' :: (Nat.repr j).data := by
    simpa [List.append_assoc, List.cons_append, List.singleton_append] using hd
  obtain ⟨h1, h2⟩ := append_underscore_inj _ _ _ _
    (repr_no_underscore p) (repr_no_underscore q) hd'
  exact ⟨repr_data_inj h1, repr_data_inj h2⟩

theorem mkElement_bbox (p i : Nat) (item : PPItem) :
    (mkElement p i item).bbox =
      ((item.bbox.getD (0, 0, 0, 0)).1 * scale,
       (item.bbox.getD (0, 0, 0, 0)).2.1 * scale,
       (item.bbox.getD (0, 0, 0, 0)).2.2.1 * scale,
       (item.bbox.getD (0, 0, 0, 0)).2.2.2 * scale) := by
  simp only [mkElement]
  split_ifs <;> rfl

theorem parseItemsFrom_map_bbox (p : Nat) :
    ∀ (items : List PPItem) (i : Nat),
      (parseItemsFrom p i items).map Block.bbox =
        items.map (fun item =>
          ((item.bbox.getD (0, 0, 0, 0)).1 * scale,
           (item.bbox.getD (0, 0, 0, 0)).2.1 * scale,
           (item.bbox.getD (0, 0, 0, 0)).2.2.1 * scale,
           (item.bbox.getD (0, 0, 0, 0)).2.2.2 * scale)) := by
  intro items
  induction items with
  | nil => intro i; rfl
  | cons item rest ih =>
    intro i
    simp only [parseItemsFrom, List.map_cons, ih, mkElement_bbox]

/-- C1: for every list of layout items and every item in it,
`parse_pp_structure_result` rescales the item's bounding box by the
single fixed linear factor 72/200 applied to each of the four
coordinates; a missing bbox defaults to (0, 0, 0, 0). -/
theorem C1_bbox_rescaled (result : List PPItem) (page_index : Nat)
    (page_width page_height : ℚ) :
    (parse_pp_structure_result result page_index page_width page_height).map
        Block.bbox =
      result.map (fun item =>
        ((item.bbox.getD (0, 0, 0, 0)).1 * (72 / 200),
         (item.bbox.getD (0, 0, 0, 0)).2.1 * (72 / 200),
         (item.bbox.getD (0, 0, 0, 0)).2.2.1 * (72 / 200),
         (item.bbox.getD (0, 0, 0, 0)).2.2.2 * (72 / 200))) :=
  parseItemsFrom_map_bbox page_index result 0

/-- C2: `pdf_to_images` rasterizes with scale 200/72 (points to pixels)
and `parse_pp_structure_result` rescales by `scale` = 72/200 (pixels to
points); composing the two scalings is the identity on every coordinate
value. -/
theorem C2_scales_inverse :
    renderScale = 200 / 72 ∧ scale = 72 / 200 ∧
      renderScale * scale = 1 ∧ ∀ v : ℚ, v * renderScale * scale = v := by
  refine ⟨rfl, rfl, by norm_num [renderScale, scale], fun v => ?_⟩
  show v * (200 / 72) * (72 / 200) = v
  ring

theorem mkElement_type (p i : Nat) (item : PPItem) :
    (mkElement p i item).type = map_type (item.itemType.getD "text") := by
  simp only [mkElement]
  split_ifs with h1 h2 h3 h4
  · rfl
  · rw [h2]; rfl
  · rw [h3]; rfl
  · rw [h4]; rfl
  · rfl

theorem map_type_mem (s : String) :
    map_type s = "text" ∨ map_type s = "table" ∨ map_type s = "image" ∨
      map_type s = "equation" := by
  unfold map_type
  split_ifs <;> simp

theorem parseItemsFrom_type_mem (p : Nat) :
    ∀ (items : List PPItem) (i : Nat) (b : Block), b ∈ parseItemsFrom p i items →
      b.type = "text" ∨ b.type = "table" ∨ b.type = "image" ∨ b.type = "equation" := by
  intro items
  induction items with
  | nil => intro i b hb; simp [parseItemsFrom] at hb
  | cons item rest ih =>
    intro i b hb
    rcases List.mem_cons.mp hb with rfl | hb
    · rw [mkElement_type]
      exact map_type_mem _
    · exact ih (i + 1) b hb

/-- C3: every block produced by `parse_pp_structure_result` has a type in
the set text/table/image/equation; `map_type` sends title to text,
figure to image, table to table, equation to equation, and every other
input string to text. -/
theorem C3_types_closed :
    (∀ (result : List PPItem) (p : Nat) (w h : ℚ) (b : Block),
        b ∈ parse_pp_structure_result result p w h →
          b.type = "text" ∨ b.type = "table" ∨ b.type = "image" ∨
            b.type = "equation")
    ∧ map_type "text" = "text" ∧ map_type "title" = "text"
    ∧ map_type "figure" = "image" ∧ map_type "table" = "table"
    ∧ map_type "equation" = "equation"
    ∧ ∀ s : String, s ≠ "text" → s ≠ "title" → s ≠ "figure" → s ≠ "table" →
        s ≠ "equation" → map_type s = "text" := by
  refine ⟨fun result p w h b hb => parseItemsFrom_type_mem p result 0 b hb,
    rfl, rfl, rfl, rfl, rfl, fun s h1 h2 h3 h4 h5 => ?_⟩
  simp [map_type, h1, h2, h3, h4, h5]

/-- Witness for C3: the single text item of `itemEx` yields a block of an
allowed type, and an unrecognized model type maps to text. -/
theorem C3_witness :
    ((mkElement 1 0 itemEx).type = "text" ∨ (mkElement 1 0 itemEx).type = "table" ∨
      (mkElement 1 0 itemEx).type = "image" ∨ (mkElement 1 0 itemEx).type = "equation")
    ∧ map_type "header" = "text" :=
  ⟨C3_types_closed.1 [itemEx] 1 0 0 (mkElement 1 0 itemEx)
      (List.mem_singleton_self (mkElement 1 0 itemEx)),
   C3_types_closed.2.2.2.2.2.2 "header" (by decide) (by decide) (by decide)
     (by decide) (by decide)⟩

/-- C10: the output of `parse_pp_structure_result` does not depend on the
`page_width` and `page_height` arguments. -/
theorem C10_page_size_independent (result : List PPItem) (page_index : Nat)
    (w h w' h' : ℚ) :
    parse_pp_structure_result result page_index w h =
      parse_pp_structure_result result page_index w' h' := rfl

/-- Counterexample to C5: the Flask application registers two routes, not
one. -/
theorem C5_counterexample : ¬ appRoutes.length = 1 := by decide

/-- C5 (amended): the set of routes registered on the Flask application
has size two: POST /parse and GET /health. -/
theorem C5_two_routes :
    appRoutes.length = 2 ∧ appRoutes.map Prod.fst = ["/parse", "/health"] := by
  decide

/-- C7: `main` first ensures the output directory exists, then generates
exactly the ten sample docx documents in order, all saved under the
samples output directory, together covering paragraphs, lists, tables,
images, headers/footers, sections, and page breaks. -/
theorem C7_main_generates_samples (fs : FS) :
    (DocxGen.main fs).2.head? = some (GenAction.ensureDir OUTPUT_DIR)
    ∧ (savedDocs (DocxGen.main fs).2).map (fun x => x.2.1) =
        ["basic-paragraphs.docx", "lists-and-indent.docx", "table-simple.docx",
         "table-merge.docx", "image-inline.docx", "header-footer.docx",
         "page-breaks.docx", "sections-margins.docx", "styles-headings.docx",
         "mixed-layout.docx"]
    ∧ ((savedDocs (DocxGen.main fs).2).all fun x => x.1 == OUTPUT_DIR) = true
    ∧ ((savedDocs (DocxGen.main fs).2).any fun x => x.2.2.hasPara) = true
    ∧ ((savedDocs (DocxGen.main fs).2).any fun x => x.2.2.hasListItem) = true
    ∧ ((savedDocs (DocxGen.main fs).2).any fun x => x.2.2.hasTable) = true
    ∧ ((savedDocs (DocxGen.main fs).2).any fun x => x.2.2.hasPicture) = true
    ∧ ((savedDocs (DocxGen.main fs).2).any fun x => x.2.2.hasHeaderFooter) = true
    ∧ ((savedDocs (DocxGen.main fs).2).any fun x => x.2.2.multiSection) = true
    ∧ ((savedDocs (DocxGen.main fs).2).any fun x => x.2.2.hasPageBreak) = true := by
  have hacts : (DocxGen.main fs).2 =
      GenAction.ensureDir OUTPUT_DIR ::
        [save_doc basicParagraphsDoc "basic-paragraphs.docx",
         save_doc listsAndIndentDoc "lists-and-indent.docx",
         save_doc tableSimpleDoc "table-simple.docx",
         save_doc tableMergeDoc "table-merge.docx",
         GenAction.writePng pngPath,
         save_doc imageInlineDoc "image-inline.docx",
         save_doc headerFooterDoc "header-footer.docx",
         save_doc pageBreaksDoc "page-breaks.docx",
         save_doc sectionsMarginsDoc "sections-margins.docx",
         save_doc stylesHeadingsDoc "styles-headings.docx",
         save_doc mixedLayoutDoc "mixed-layout.docx"] := by
    have hpng : (FS.write fs pngPath) pngPath = true := by simp [FS.write]
    simp [DocxGen.main, make_basic_paragraphs, make_lists_and_indent,
      make_table_simple, make_table_merge, make_image_inline,
      make_header_footer, make_page_breaks, make_sections_margins,
      make_styles_headings, make_mixed_layout, hpng]
  rw [hacts]
  decide

/-- C4: for every exception escaping the handler body, the endpoint
returns HTTP 500 with the error string as JSON body, performing no
retry, rollback or other recovery: the file-system state and effect
trace are exactly those left by the failed body. -/
theorem C4_blanket_handler (env : Env) (req : ParseRequest) (fs : FS)
    (e : String) (fs' : FS) (effs : List Effect)
    (h : parse_body env req fs = (Except.error e, fs', effs)) :
    parse_pdf env req fs = (⟨500, Body.errorMsg e⟩, fs', effs) := by
  unfold parse_pdf
  rw [h]

/-- Witness for C4: an environment whose PDF library throws yields the
500 response with the exception text. -/
theorem C4_witness :
    parse_pdf envErr reqEx fsAll = (⟨500, Body.errorMsg "boom"⟩, fsAll, []) :=
  C4_blanket_handler envErr reqEx fsAll "boom" fsAll [] rfl

/-- C8: a request whose body lacks pdf_path, has a falsy (empty) value
for it, or names a non-existing path gets HTTP 404 with body error
PDF file not found, with no rasterization, inference or file-system
change (empty effect trace, unchanged state). -/
theorem C8_missing_pdf_404 (env : Env) (fs : FS) (req : ParseRequest)
    (h : req.pdf_path = none ∨ req.pdf_path = some "" ∨
         ∃ p, req.pdf_path = some p ∧ fs p = false) :
    parse_pdf env req fs = (⟨404, Body.errorMsg "PDF file not found"⟩, fs, []) := by
  rcases h with h | h | ⟨p, hp, hfs⟩
  · unfold parse_pdf parse_body
    rw [h]
    rfl
  · unfold parse_pdf parse_body
    rw [h]
    simp [notFound]
  · unfold parse_pdf parse_body
    rw [hp]
    by_cases hempty : p = ""
    · simp [hempty, notFound]
    · simp [hempty, hfs, notFound]

/-- Witness for C8: a request with no pdf_path key gets the 404 and an
empty effect trace. -/
theorem C8_witness :
    parse_pdf envOk reqNone fsAll =
      (⟨404, Body.errorMsg "PDF file not found"⟩, fsAll, []) :=
  C8_missing_pdf_404 envOk fsAll reqNone (Or.inl rfl)

theorem FS.remove_true {fs : FS} {q p : String} (h : FS.remove fs q p = true) :
    fs p = true := by
  by_cases hpq : p = q
  · simp [FS.remove, hpq] at h
  · simpa [FS.remove, hpq] using h

theorem FS.remove_self (fs : FS) (p : String) : FS.remove fs p p = false := by
  simp [FS.remove]

theorem writtenImages_append (a b : List Effect) :
    writtenImages (a ++ b) = writtenImages a ++ writtenImages b := by
  induction a with
  | nil => rfl
  | cons e rest ih => cases e <;> simp [writtenImages, ih]

theorem writtenImages_renderPages :
    ∀ (dims : List PageDim) (k : Nat) (fs : FS),
      writtenImages (renderPages dims k fs).2.2 =
        ((renderPages dims k fs).1).map PageImage.path := by
  intro dims
  induction dims with
  | nil => intro k fs; rfl
  | cons d rest ih => intro k fs; simp [renderPages, writtenImages, ih]

theorem processPages_no_writes (env : Env) :
    ∀ (images : List PageImage) (fs : FS),
      writtenImages (processPages env images fs).2.2 = [] := by
  intro images
  induction images with
  | nil => intro fs; rfl
  | cons img rest ih =>
    intro fs
    rcases hpp : env.pp_structure img.path with e | result
    · simp [processPages, hpp, writtenImages]
    · by_cases hex : fs img.path = true <;>
        simp [processPages, hpp, hex, writtenImages, writtenImages_append, ih]

theorem processPages_mono (env : Env) :
    ∀ (images : List PageImage) (fs : FS) (p : String),
      (processPages env images fs).2.1 p = true → fs p = true := by
  intro images
  induction images with
  | nil => intro fs p h; simpa [processPages] using h
  | cons img rest ih =>
    intro fs p h
    rcases hpp : env.pp_structure img.path with e | result
    · simpa [processPages, hpp] using h
    · by_cases hex : fs img.path = true
      · simp only [processPages, hpp] at h
        simp only [hex, if_true] at h
        exact FS.remove_true (ih (FS.remove fs img.path) p h)
      · simp only [processPages, hpp] at h
        simp only [hex, if_false] at h
        exact ih fs p h

theorem processPages_removes (env : Env) :
    ∀ (images : List PageImage) (fs : FS) (pages : List Page) (fs' : FS)
      (effs : List Effect),
      processPages env images fs = (Except.ok pages, fs', effs) →
      ∀ img ∈ images, fs' img.path = false := by
  intro images
  induction images with
  | nil => intro fs pages fs' effs h img him; simp at him
  | cons img0 rest ih =>
    intro fs pages fs' effs h img him
    rcases hpp : env.pp_structure img0.path with e | result
    · simp [processPages, hpp] at h
    · by_cases hex : fs img0.path = true
      · rcases hr : processPages env rest (FS.remove fs img0.path) with ⟨res2, fs2, effs2⟩
        simp [processPages, hpp, hex, hr] at h
        cases res2 with
        | error e => simp [Except.map] at h
        | ok pages2 =>
          obtain ⟨-, h2, -⟩ := h
          subst h2
          rcases List.mem_cons.mp him with rfl | him'
          · cases hb : fs2 img.path with
            | false => rfl
            | true =>
              have hmono := processPages_mono env rest (FS.remove fs img.path)
                img.path (by rw [hr]; exact hb)
              rw [FS.remove_self] at hmono
              exact hmono.symm ▸ rfl
          · exact ih (FS.remove fs img0.path) pages2 fs2 effs2 hr img him'
      · rcases hr : processPages env rest fs with ⟨res2, fs2, effs2⟩
        simp [processPages, hpp, hex, hr] at h
        cases res2 with
        | error e => simp [Except.map] at h
        | ok pages2 =>
          obtain ⟨-, h2, -⟩ := h
          subst h2
          rcases List.mem_cons.mp him with rfl | him'
          · cases hb : fs2 img.path with
            | false => rfl
            | true =>
              have hmono := processPages_mono env rest fs img.path (by rw [hr]; exact hb)
              simp [hmono] at hex
          · exact ih fs pages2 fs2 effs2 hr img him'

theorem parse_pdf_ok_200 (env : Env) (req : ParseRequest) (fs : FS)
    (s : DocStructure) (fs' : FS) (effs : List Effect)
    (h : parse_pdf env req fs = (⟨200, Body.result s⟩, fs', effs)) :
    parse_body env req fs = (Except.ok ⟨200, Body.result s⟩, fs', effs) := by
  rcases hb : parse_body env req fs with ⟨res, fsb, effsb⟩
  unfold parse_pdf at h
  rw [hb] at h
  cases res with
  | error e =>
    simp only [Prod.mk.injEq, Response.mk.injEq] at h
    omega
  | ok resp =>
    simp only [Prod.mk.injEq] at h
    obtain ⟨h1, h2, h3⟩ := h
    rw [h1, h2, h3]

theorem parse_body_ok_200 (env : Env) (req : ParseRequest) (fs : FS)
    (s : DocStructure) (fs' : FS) (effs : List Effect)
    (h : parse_body env req fs = (Except.ok ⟨200, Body.result s⟩, fs', effs)) :
    ∃ pdfp dims pages effs2,
      req.pdf_path = some pdfp ∧
      env.openPdf pdfp = Except.ok dims ∧
      processPages env (renderPages dims 0 fs).1 (renderPages dims 0 fs).2.1 =
        (Except.ok pages, fs', effs2) ∧
      s = ⟨pages.length, pages⟩ ∧
      effs = (Effect.makeTempDir :: (renderPages dims 0 fs).2.2) ++ effs2 := by
  rcases hreq : req.pdf_path with _ | pdfp
  · rw [parse_body, hreq] at h
    simp [notFound] at h
  · rw [parse_body, hreq] at h
    by_cases hne : pdfp = ""
    · simp [hne, notFound] at h
    · by_cases hfs : fs pdfp = false
      · simp [hne, hfs, notFound] at h
      · rcases hopen : env.openPdf pdfp with e | dims
        · simp [hne, hfs, pdf_to_images, hopen] at h
        · rcases hproc : processPages env (renderPages dims 0 fs).1
              (renderPages dims 0 fs).2.1 with ⟨res2, fs2, effs2⟩
          simp [hne, hfs, pdf_to_images, hopen, hproc] at h
          cases res2 with
          | error e => simp at h
          | ok pages =>
            refine ⟨pdfp, dims, pages, effs2, rfl, hopen, ?_, ?_, ?_⟩ <;> simp_all

/-- C6: on every successful parse request, each temporary page image file
written by `pdf_to_images` has been removed by the time the response is
returned: no per-request file state survives the request. -/
theorem C6_temp_images_removed (env : Env) (req : ParseRequest) (fs : FS)
    (s : DocStructure) (fs' : FS) (effs : List Effect)
    (h : parse_pdf env req fs = (⟨200, Body.result s⟩, fs', effs)) :
    ∀ p ∈ writtenImages effs, fs' p = false := by
  obtain ⟨pdfp, dims, pages, effs2, hreq, hopen, hproc, hs, heffs⟩ :=
    parse_body_ok_200 env req fs s fs' effs (parse_pdf_ok_200 env req fs s fs' effs h)
  intro p hp
  have hnw : writtenImages effs2 = [] := by
    have hw := processPages_no_writes env (renderPages dims 0 fs).1
      (renderPages dims 0 fs).2.1
    rw [hproc] at hw
    exact hw
  rw [heffs, writtenImages_append] at hp
  simp only [writtenImages] at hp
  rw [writtenImages_renderPages, hnw, List.append_nil] at hp
  obtain ⟨img, him, rfl⟩ := List.mem_map.mp hp
  exact processPages_removes env _ _ _ _ _ hproc img him

/-- Witness for C6: a one-page request against `envOk` leaves the single
temporary image `page_0.png` deleted. -/
theorem C6_witness :
    FS.remove (FS.write fsAll (imgPath 0)) (imgPath 0) (imgPath 0) = false :=
  C6_temp_images_removed envOk reqEx fsAll sW
    (FS.remove (FS.write fsAll (imgPath 0)) (imgPath 0))
    [Effect.makeTempDir, Effect.writeImage (imgPath 0),
     Effect.inference (imgPath 0), Effect.removeFile (imgPath 0)]
    (by rfl) (imgPath 0) (by decide)

theorem mkElement_id (p i : Nat) (item : PPItem) :
    (mkElement p i item).id = elId p i := by
  simp only [mkElement]
  split_ifs <;> rfl

theorem parseItemsFrom_length (p : Nat) :
    ∀ (items : List PPItem) (i : Nat),
      (parseItemsFrom p i items).length = items.length := by
  intro items
  induction items with
  | nil => intro i; rfl
  | cons item rest ih => intro i; simp [parseItemsFrom, ih]

theorem parseItemsFrom_map_id (p : Nat) :
    ∀ (items : List PPItem) (i : Nat),
      (parseItemsFrom p i items).map Block.id =
        (List.range items.length).map (fun j => elId p (i + j)) := by
  intro items
  induction items with
  | nil => intro i; rfl
  | cons item rest ih =>
    intro i
    simp only [parseItemsFrom, List.map_cons, mkElement_id, List.length_cons,
      List.range_succ_eq_map, List.map_map, ih]
    congr 1
    exact List.map_congr_left (fun a _ => by
      simp only [Function.comp_apply]
      congr 1
      omega)

theorem parse_map_id (p : Nat) (items : List PPItem) (w h : ℚ) :
    (parse_pp_structure_result items p w h).map Block.id =
      (List.range items.length).map (fun j => elId p j) := by
  rw [parse_pp_structure_result, parseItemsFrom_map_id]
  exact List.map_congr_left (fun a _ => by rw [Nat.zero_add])

theorem parse_length (p : Nat) (items : List PPItem) (w h : ℚ) :
    (parse_pp_structure_result items p w h).length = items.length :=
  parseItemsFrom_length p items 0

theorem renderPages_length :
    ∀ (dims : List PageDim) (k : Nat) (fs : FS),
      (renderPages dims k fs).1.length = dims.length := by
  intro dims
  induction dims with
  | nil => intro k fs; rfl
  | cons d rest ih => intro k fs; simp [renderPages, ih]

theorem renderPages_getD :
    ∀ (dims : List PageDim) (k : Nat) (fs : FS) (i : Nat), i < dims.length →
      (renderPages dims k fs).1.getD i defaultImage =
        ⟨k + i + 1, imgPath (k + i),
         (dims.getD i defaultDim).width, (dims.getD i defaultDim).height⟩ := by
  intro dims
  induction dims with
  | nil => intro k fs i hi; simp at hi
  | cons d rest ih =>
    intro k fs i hi
    cases i with
    | zero => simp [renderPages]
    | succ i =>
      have hi' : i < rest.length := by simpa using hi
      have hrec := ih (k + 1) (FS.write fs (imgPath k)) i hi'
      simp only [renderPages, List.getD_cons_succ]
      rw [hrec]
      have harith : k + 1 + i = k + (i + 1) := by omega
      rw [harith]

theorem processPages_ok (env : Env) :
    ∀ (images : List PageImage) (fs : FS) (pages : List Page) (fs' : FS)
      (effs : List Effect),
      processPages env images fs = (Except.ok pages, fs', effs) →
      pages.length = images.length ∧
      ∀ k, k < images.length →
        ∃ items, env.pp_structure ((images.getD k defaultImage).path) =
            Except.ok items ∧
          pages.getD k defaultPage =
            ⟨(images.getD k defaultImage).pageIndex,
             (images.getD k defaultImage).width,
             (images.getD k defaultImage).height,
             parse_pp_structure_result items (images.getD k defaultImage).pageIndex
               (images.getD k defaultImage).width
               (images.getD k defaultImage).height⟩ := by
  intro images
  induction images with
  | nil =>
    intro fs pages fs' effs h
    simp [processPages] at h
    obtain ⟨h1, -, -⟩ := h
    subst h1
    exact ⟨rfl, fun k hk => absurd hk (by simp)⟩
  | cons img0 rest ih =>
    intro fs pages fs' effs h
    rcases hpp : env.pp_structure img0.path with e | result
    · simp [processPages, hpp] at h
    · by_cases hex : fs img0.path = true
      · rcases hr : processPages env rest (FS.remove fs img0.path) with ⟨res2, fs2, effs2⟩
        simp [processPages, hpp, hex, hr] at h
        cases res2 with
        | error e => simp [Except.map] at h
        | ok pages2 =>
          simp [Except.map] at h
          obtain ⟨h1, -, -⟩ := h
          obtain ⟨ihlen, ihpt⟩ := ih (FS.remove fs img0.path) pages2 fs2 effs2 hr
          subst h1
          refine ⟨by simp [ihlen], fun k hk => ?_⟩
          cases k with
          | zero => exact ⟨result, hpp, rfl⟩
          | succ k =>
            have hk' : k < rest.length := by simpa using hk
            simpa using ihpt k hk'
      · rcases hr : processPages env rest fs with ⟨res2, fs2, effs2⟩
        simp [processPages, hpp, hex, hr] at h
        cases res2 with
        | error e => simp [Except.map] at h
        | ok pages2 =>
          simp [Except.map] at h
          obtain ⟨h1, -, -⟩ := h
          obtain ⟨ihlen, ihpt⟩ := ih fs pages2 fs2 effs2 hr
          subst h1
          refine ⟨by simp [ihlen], fun k hk => ?_⟩
          cases k with
          | zero => exact ⟨result, hpp, rfl⟩
          | succ k =>
            have hk' : k < rest.length := by simpa using hk
            simpa using ihpt k hk'

theorem parse_pdf_200_pages (env : Env) (req : ParseRequest) (fs : FS)
    (s : DocStructure) (fs' : FS) (effs : List Effect)
    (h : parse_pdf env req fs = (⟨200, Body.result s⟩, fs', effs)) :
    s.pageCount = s.pages.length ∧
    ∀ k, k < s.pages.length →
      ∃ items, env.pp_structure (imgPath k) = Except.ok items ∧
        s.pages.getD k defaultPage =
          ⟨k + 1, (s.pages.getD k defaultPage).width,
           (s.pages.getD k defaultPage).height,
           parse_pp_structure_result items (k + 1)
             (s.pages.getD k defaultPage).width
             (s.pages.getD k defaultPage).height⟩ := by
  obtain ⟨pdfp, dims, pages, effs2, hreq, hopen, hproc, hs, heffs⟩ :=
    parse_body_ok_200 env req fs s fs' effs (parse_pdf_ok_200 env req fs s fs' effs h)
  obtain ⟨hlen, hpt⟩ := processPages_ok env _ _ _ _ _ hproc
  have hilen : (renderPages dims 0 fs).1.length = dims.length :=
    renderPages_length dims 0 fs
  subst hs
  refine ⟨rfl, fun k hk => ?_⟩
  have hk2 : k < (renderPages dims 0 fs).1.length := by
    rw [hlen] at hk
    exact hk
  have hkdims : k < dims.length := by rw [← hilen]; exact hk2
  obtain ⟨items, hitems, hpage⟩ := hpt k hk2
  have himg := renderPages_getD dims 0 fs k hkdims
  rw [himg] at hitems hpage
  simp only [Nat.zero_add] at hitems hpage
  refine ⟨items, hitems, ?_⟩
  show pages.getD k defaultPage = _
  rw [hpage]

theorem nodup_flatten_of_pairwise :
    ∀ (L : List (List String)), (∀ l ∈ L, l.Nodup) →
      L.Pairwise List.Disjoint → L.flatten.Nodup := by
  intro L
  induction L with
  | nil => intro _ _; simp
  | cons l L ih =>
    intro hall hpair
    rw [List.flatten_cons, List.nodup_append]
    obtain ⟨hhead, htail⟩ := List.pairwise_cons.mp hpair
    refine ⟨hall l (by simp), ih (fun x hx => hall x (by simp [hx])) htail, ?_⟩
    intro a ha hb
    obtain ⟨m, hm, ham⟩ := List.mem_flatten.mp hb
    exact hhead m hm ha ham

/-- C9: every successful parse response has pageCount equal to the number
of pages, consecutive 1-based page indices, one block per model layout
item in the model's order with ids el_pageIndex_idx, and pairwise
distinct block ids across the whole response. -/
theorem C9_response_invariants (env : Env) (req : ParseRequest) (fs : FS)
    (s : DocStructure) (fs' : FS) (effs : List Effect)
    (h : parse_pdf env req fs = (⟨200, Body.result s⟩, fs', effs)) :
    s.pageCount = s.pages.length
    ∧ (∀ k, k < s.pages.length → (s.pages.getD k defaultPage).pageIndex = k + 1)
    ∧ (∀ k, k < s.pages.length →
        ∃ items, env.pp_structure (imgPath k) = Except.ok items ∧
          (s.pages.getD k defaultPage).blocks =
            parse_pp_structure_result items (k + 1)
              (s.pages.getD k defaultPage).width
              (s.pages.getD k defaultPage).height ∧
          (s.pages.getD k defaultPage).blocks.length = items.length)
    ∧ (∀ k, k < s.pages.length →
        ((s.pages.getD k defaultPage).blocks).map Block.id =
          (List.range ((s.pages.getD k defaultPage).blocks.length)).map
            (fun j => elId (k + 1) j))
    ∧ (allIds s).Nodup := by
  obtain ⟨hcount, hpt⟩ := parse_pdf_200_pages env req fs s fs' effs h
  have hpidx : ∀ k, k < s.pages.length →
      (s.pages.getD k defaultPage).pageIndex = k + 1 := by
    intro k hk
    obtain ⟨items, -, hpage⟩ := hpt k hk
    rw [hpage]
  have hblocks : ∀ k, k < s.pages.length →
      ∃ items, env.pp_structure (imgPath k) = Except.ok items ∧
        (s.pages.getD k defaultPage).blocks =
          parse_pp_structure_result items (k + 1)
            (s.pages.getD k defaultPage).width
            (s.pages.getD k defaultPage).height ∧
        (s.pages.getD k defaultPage).blocks.length = items.length := by
    intro k hk
    obtain ⟨items, hitems, hpage⟩ := hpt k hk
    refine ⟨items, hitems, ?_, ?_⟩
    · rw [hpage]
    · rw [hpage]
      dsimp only
      exact parse_length _ _ _ _
  have hids : ∀ k, k < s.pages.length →
      ((s.pages.getD k defaultPage).blocks).map Block.id =
        (List.range ((s.pages.getD k defaultPage).blocks.length)).map
          (fun j => elId (k + 1) j) := by
    intro k hk
    obtain ⟨items, -, hpage⟩ := hpt k hk
    rw [hpage]
    dsimp only
    rw [parse_length, parse_map_id]
  have hnodup : (allIds s).Nodup := by
    simp only [allIds]
    apply nodup_flatten_of_pairwise
    · intro l hl
      obtain ⟨pg, hpg, rfl⟩ := List.mem_map.mp hl
      obtain ⟨k, hk, hget⟩ := List.mem_iff_getElem.mp hpg
      have hpgd : pg = s.pages.getD k defaultPage := by
        rw [List.getD_eq_getElem s.pages defaultPage hk, hget]
      show (pg.blocks.map Block.id).Nodup
      rw [hpgd, hids k hk]
      exact (List.nodup_range _).map (fun a b hab => (elId_inj hab).2)
    · rw [List.pairwise_map, List.pairwise_iff_getElem]
      intro i j hi hj hij
      intro a hai haj
      have hgi : s.pages[i] = s.pages.getD i defaultPage :=
        (List.getD_eq_getElem s.pages defaultPage hi).symm
      have hgj : s.pages[j] = s.pages.getD j defaultPage :=
        (List.getD_eq_getElem s.pages defaultPage hj).symm
      rw [hgi, hids i hi] at hai
      rw [hgj, hids j hj] at haj
      obtain ⟨a1, -, ha1⟩ := List.mem_map.mp hai
      obtain ⟨a2, -, ha2⟩ := List.mem_map.mp haj
      have heq : elId (i + 1) a1 = elId (j + 1) a2 := by rw [ha1, ha2]
      have := (elId_inj heq).1
      omega
  exact ⟨hcount, hpidx, hblocks, hids, hnodup⟩

/-- Witness for C9: the one-page response for `envOk` has matching page
count, pageIndex 1 on its first page, and no duplicate block ids. -/
theorem C9_witness :
    sW.pageCount = sW.pages.length ∧
    (sW.pages.getD 0 defaultPage).pageIndex = 1 ∧
    (allIds sW).Nodup :=
  have h9 := C9_response_invariants envOk reqEx fsAll sW
    (FS.remove (FS.write fsAll (imgPath 0)) (imgPath 0))
    [Effect.makeTempDir, Effect.writeImage (imgPath 0),
     Effect.inference (imgPath 0), Effect.removeFile (imgPath 0)]
    (by rfl)
  ⟨h9.1, h9.2.1 0 (by decide), h9.2.2.2.2⟩
